import Mathlib

/-!
Shallow embedding of the zigbee-LED-ESP32-controller firmware core:
the generic transition (interpolation) engine, the hue/color utilities,
and the segment render/compose pipeline, together with theorems settling
the specification claims about them.

Machine integers are modelled as `Nat`/`Int` with explicit truncation
(`u16`, `u8`, `i16`) applied exactly where the C code performs a cast,
and C truncating division/modulus as `Int.tdiv`/`Int.tmod`.
-/

namespace LedFw

/-- Truncation of an integer to an unsigned 16-bit value (C cast to `uint16_t`). -/
def u16 (x : Int) : Nat := (x % 65536).toNat

/-- Truncation of an integer to an unsigned 8-bit value (C cast to `uint8_t`). -/
def u8 (x : Int) : Nat := (x % 256).toNat

/-- Reinterpretation of an integer as a signed 16-bit value (C cast to `int16_t`). -/
def i16 (x : Int) : Int := (x + 32768) % 65536 - 32768

/-!  ## Transition engine (`components/transition_engine/src/transition_engine.c`)

`transition_t` is the caller-owned state of one interpolated scalar.
`start_time_us` is an `int64_t` microsecond timestamp, `duration_us` a
`uint32_t`, the three values `uint16_t`.  The periodic timer is modelled
by passing the current time `now` explicitly to the operations that read
the clock (`transition_start`, `transition_tick`).
-/

structure transition_t where
  active : Bool
  start_time_us : Int
  duration_us : Nat
  start_value : Nat
  target_value : Nat
  current_value : Nat
deriving Repr, DecidableEq

/-- Zero-initialised `transition_t` (callers zero the struct before first use). -/
def transition_zero : transition_t :=
  { active := false, start_time_us := 0, duration_us := 0
    start_value := 0, target_value := 0, current_value := 0 }

/-- Model of `transition_start`: instant snap when `duration_ms == 0`,
otherwise capture `current_value` as the new start and activate.
`duration_us = duration_ms * 1000` is computed in `uint64` and stored in a
`uint32_t` field, hence the truncation. -/
def transition_start (t : transition_t) (target : Nat) (duration_ms : Nat) (now : Int) :
    transition_t :=
  if duration_ms = 0 then
    { t with start_value := target, target_value := target
             current_value := target, active := false }
  else
    { t with start_value := t.current_value
             target_value := target
             duration_us := duration_ms * 1000 % 4294967296
             start_time_us := now
             active := true }

/-- Model of `transition_get_value` (non-null pointer case). -/
def transition_get_value (t : transition_t) : Nat := t.current_value

/-- Model of `transition_is_active` (non-null pointer case). -/
def transition_is_active (t : transition_t) : Bool := t.active

/-- Model of `transition_cancel`: clear `active`, touch nothing else. -/
def transition_cancel (t : transition_t) : transition_t :=
  { t with active := false }

/-- Model of `transition_tick`: no-op when inactive; clamp negative elapsed
time to zero; complete when `elapsed >= duration_us`; otherwise linear
interpolation `start + (range * elapsed) / duration` in C integer
arithmetic (`int64` multiply, truncating division, `uint16_t` store). -/
def transition_tick (t : transition_t) (now : Int) : transition_t :=
  if !t.active then t
  else
    let elapsed0 : Int := now - t.start_time_us
    let elapsed : Int := if elapsed0 < 0 then 0 else elapsed0
    if t.duration_us ≤ elapsed.toNat then
      { t with current_value := t.target_value, active := false }
    else
      let range : Int := (t.target_value : Int) - (t.start_value : Int)
      let val : Int := (t.start_value : Int) + (range * elapsed).tdiv (t.duration_us : Int)
      { t with current_value := u16 val }

/-- ESP-IDF result codes used by the registry. -/
inductive EspErr where
  | ok
  | invalidArg
  | noMem
deriving Repr, DecidableEq

/-- Model of `transition_register`: registry of caller-owned transition
references (modelled as addresses `Nat`, `none` standing for a NULL
pointer).  Idempotent by address; capacity `TRANSITION_REGISTRY_MAX = 64`. -/
def transition_register (reg : List Nat) (t : Option Nat) : List Nat × EspErr :=
  match t with
  | none => (reg, .invalidArg)
  | some p =>
    if p ∈ reg then (reg, .ok)
    else if 64 ≤ reg.length then (reg, .noMem)
    else (reg ++ [p], .ok)

/-- Settled-state invariant claimed by the spec for `transition_t`:
an inactive transition sits exactly at its target. -/
def settled (t : transition_t) : Prop :=
  t.active = false → t.current_value = t.target_value

instance (t : transition_t) : Decidable (settled t) := by
  unfold settled; infer_instance

/-- Interpolated value of the tick formula at elapsed time `e`:
`start + (range * elapsed) / duration` in C integer arithmetic. -/
def val_at (v tgt D : Nat) (e : Int) : Int :=
  (v : Int) + (((tgt : Int) - v) * e).tdiv D

/-!  ## Hue utilities (`color_engine.c`) -/

/-- Model of `normalize_hue`: inputs above 360 are reinterpreted as signed
16-bit, reduced with C truncating `%`, shifted by +360 and stored back in a
`uint16_t`; inputs at or below 360 are reduced modulo 360. -/
def normalize_hue (hue_raw : Nat) : Nat :=
  if 360 < hue_raw then
    u16 ((i16 hue_raw).tmod 360 + 360)
  else hue_raw % 360

/-- Model of `hue_shortest_arc`: signed 16-bit arithmetic on the naive
difference; a difference beyond ±180° pulls the target across the 0/360
boundary. -/
def hue_shortest_arc (current_hue target_hue : Nat) : Int :=
  let current : Int := i16 current_hue
  let target : Int := i16 target_hue
  let diff : Int := i16 (target - current)
  if 180 < diff then i16 (target - 360)
  else if diff < -180 then i16 (target + 360)
  else target

/-- Model of `start_hue_transition`: normalize the transition's current raw
value, compute the shortest-arc-adjusted target and start the transition
with it (the adjusted signed target is stored through a `uint16_t` cast). -/
def start_hue_transition (hue_trans : transition_t) (target_hue duration_ms : Nat)
    (now : Int) : transition_t :=
  let current_hue_raw := transition_get_value hue_trans
  let current_hue := normalize_hue current_hue_raw
  let adjusted_target := hue_shortest_arc current_hue target_hue
  transition_start hue_trans (u16 adjusted_target) duration_ms now

/-!  ## HSV conversion (`color_engine.c`) and render pipeline (`led_renderer.c`)

The LED driver (`led_driver_*` in the source) is modelled as per-strip
pixel counts plus a buffer function; `led_driver_set_pixel` ignores
out-of-range strips and indices exactly as the C guard does.
-/

/-- Model of `hsv_to_rgb`: wrapped-hue normalization, 6-region HSV with the
0–254 saturation scale; intermediate arithmetic in C `int` with `uint8_t`
stores. -/
def hsv_to_rgb (h0 s v : Nat) : Nat × Nat × Nat :=
  let h : Nat := if 360 < h0 then u16 ((i16 h0).tmod 360 + 360) else h0 % 360
  if s = 0 then (v, v, v)
  else
    let region : Nat := h / 60
    let remainder : Nat := (h - region * 60) * 6
    let p : Nat := u8 (((v : Int) * (254 - (s : Int))).tdiv 254)
    let q : Nat := u8 (((v : Int) * (254 - ((s : Int) * remainder).tdiv 360)).tdiv 254)
    let t : Nat := u8 (((v : Int) *
      (254 - ((s : Int) * (360 - (remainder : Int))).tdiv 360)).tdiv 254)
    match region with
    | 0 => (v, t, p)
    | 1 => (q, v, p)
    | 2 => (p, v, t)
    | 3 => (p, q, v)
    | 4 => (t, p, v)
    | _ => (v, p, q)

/-- One RGBW pixel value. -/
structure Rgbw where
  r : Nat
  g : Nat
  b : Nat
  w : Nat
deriving Repr, DecidableEq

/-- The all-zero (off) pixel. -/
def rgbw_zero : Rgbw := ⟨0, 0, 0, 0⟩

/-- Model of `segment_geom_t`. -/
structure segment_geom_t where
  start : Nat
  count : Nat
  strip_id : Nat
deriving Repr, DecidableEq

/-- Model of `segment_light_t` (settled fields plus the four embedded
transitions). -/
structure segment_light_t where
  «on» : Bool
  level : Nat
  hue : Nat
  saturation : Nat
  color_mode : Nat
  color_temp : Nat
  startup_on_off : Nat
  level_trans : transition_t
  hue_trans : transition_t
  sat_trans : transition_t
  ct_trans : transition_t
deriving Repr, DecidableEq

/-- LED driver state: per-strip pixel counts and the pixel buffers
(modelled as one function over strip number and pixel index). -/
structure LedState where
  count : Nat → Nat
  buf : Nat → Nat → Rgbw

/-- `LED_DRIVER_MAX_STRIPS` from the driver. -/
def LED_DRIVER_MAX_STRIPS : Nat := 2

/-- Model of `led_driver_get_count`: 0 for an out-of-range strip. -/
def led_driver_get_count (L : LedState) (strip : Nat) : Nat :=
  if LED_DRIVER_MAX_STRIPS ≤ strip then 0 else L.count strip

/-- Model of `led_driver_set_pixel`: rejects out-of-range strip or index,
otherwise stores the RGBW quadruple at that pixel. -/
def led_driver_set_pixel (L : LedState) (strip idx : Nat) (c : Rgbw) : LedState :=
  if LED_DRIVER_MAX_STRIPS ≤ strip then L
  else if L.count strip ≤ idx then L
  else { L with buf := fun s i => if s = strip ∧ i = idx then c else L.buf s i }

/-- Model of `led_driver_clear`: zero all pixels of one strip. -/
def led_driver_clear (L : LedState) (strip : Nat) : LedState :=
  if LED_DRIVER_MAX_STRIPS ≤ strip then L
  else { L with buf := fun s i =>
    if s = strip ∧ i < L.count strip then rgbw_zero else L.buf s i }

/-- RGBW contribution of one segment in `update_leds`: all-zero when off;
in CT mode (`color_mode == 2`) the White channel carries the interpolated
level; otherwise HSV conversion of the interpolated hue/sat/level.  The
`uint8_t` casts of the 16-bit interpolated level and saturation are the
source's `(uint8_t)transition_get_value(..)`. -/
def segment_color (st : segment_light_t) : Rgbw :=
  if st.«on» then
    let level : Nat := transition_get_value st.level_trans % 256
    let hue : Nat := transition_get_value st.hue_trans
    let sat : Nat := transition_get_value st.sat_trans % 256
    if st.color_mode = 2 then { r := 0, g := 0, b := 0, w := level }
    else
      let rgb := hsv_to_rgb hue sat level
      { r := rgb.1, g := rgb.2.1, b := rgb.2.2, w := 0 }
  else rgbw_zero

/-- The pixel-writing loop `for (i = start; i < end; i++) set_pixel(..)`
of `update_leds`, as recursion on the number of remaining pixels. -/
def write_pixel_range (L : LedState) (strip : Nat) (c : Rgbw) (start len : Nat) : LedState :=
  match len with
  | 0 => L
  | len' + 1 => write_pixel_range (led_driver_set_pixel L strip start c) strip c (start + 1) len'

/-- One segment's pass of the `update_leds` loop body: skip when
`count == 0`, compute `uint16_t end = start + count` (a 16-bit store that
wraps, so a sum of 65536 or more wraps below `start` and the loop writes
nothing), clamp the end index to the strip length, then write the
segment's RGBW value over the resulting range. -/
def render_segment (g : segment_geom_t) (st : segment_light_t) (L : LedState) : LedState :=
  if g.count = 0 then L
  else
    let c := segment_color st
    let strip_len := led_driver_get_count L g.strip_id
    let e0 : Nat := (g.start + g.count) % 65536
    let e : Nat := min e0 strip_len
    write_pixel_range L g.strip_id c g.start (e - g.start)

/-- Model of `update_leds`: clear both strips, then render the 8 segments
in index order (segment 0 first, segment 7 last). -/
def update_leds (geom : Nat → segment_geom_t) (st : Nat → segment_light_t)
    (L : LedState) : LedState :=
  let L1 := led_driver_clear (led_driver_clear L 0) 1
  (List.range 8).foldl (fun acc n => render_segment (geom n) (st n) acc) L1

/-- Segment `n` covers physical pixel `i` of strip `strip`: the segment is
enabled, sits on that strip, and its written range contains `i` — up to
the `uint16_t`-wrapped end `(start + count) % 65536` (so a segment whose
`start + count` reaches 65536 covers nothing, exactly as the program
writes nothing) and clamped to the strip length. -/
def covers (geom : Nat → segment_geom_t) (L : LedState) (n strip i : Nat) : Prop :=
  (geom n).count ≠ 0 ∧ (geom n).strip_id = strip ∧
  (geom n).start ≤ i ∧ i < ((geom n).start + (geom n).count) % 65536 ∧
  i < led_driver_get_count L strip

instance (geom : Nat → segment_geom_t) (L : LedState) (n strip i : Nat) :
    Decidable (covers geom L n strip i) := by
  unfold covers; infer_instance

/-- Demonstration LED state for the layering witness: two strips of 20
pixels, all pixels preloaded with a sentinel value. -/
def demo_led : LedState :=
  { count := fun _ => 20, buf := fun _ _ => ⟨9, 9, 9, 9⟩ }

/-- Demonstration geometry: segment 0 covers pixels 0–9, segment 3 covers
pixels 5–14, both on strip 0; all other segments disabled. -/
def demo_geom : Nat → segment_geom_t := fun n =>
  if n = 0 then ⟨0, 10, 0⟩ else if n = 3 then ⟨5, 10, 0⟩ else ⟨0, 0, 0⟩

/-- Demonstration light state: every segment on, full level/saturation,
segment 0 red (hue 0) and segment 3 blue (hue 240), settled transitions. -/
def demo_light : Nat → segment_light_t := fun n =>
  let hue : Nat := if n = 3 then 240 else 0
  { «on» := true, level := 254, hue := hue, saturation := 254, color_mode := 0
    color_temp := 250, startup_on_off := 255
    level_trans := { transition_zero with current_value := 254, target_value := 254 }
    hue_trans := { transition_zero with current_value := hue, target_value := hue }
    sat_trans := { transition_zero with current_value := 254, target_value := 254 }
    ct_trans := { transition_zero with current_value := 250, target_value := 250 } }

/-!  ## Preset recall and attribute polling (`preset_handler.c`, `led_renderer.c`)

`recall_start_transitions` is the per-segment loop body of
`handle_recall_slot_write` after a successful `preset_manager_recall`;
the four `poll_*` functions are the per-segment attribute-poll steps of
`led_render_cb` (each applied when the polled ZCL value differs from the
stored one).  `g` is the global transition duration
`g_global_transition_ms`. -/

/-- Per-segment transition restarts on preset recall: level and color
temperature with the global duration, hue and saturation with duration 0. -/
def recall_start_transitions (st : segment_light_t) (g : Nat) (now : Int) :
    segment_light_t :=
  { st with level_trans := transition_start st.level_trans st.level g now
            hue_trans := transition_start st.hue_trans st.hue 0 now
            sat_trans := transition_start st.sat_trans st.saturation 0 now
            ct_trans := transition_start st.ct_trans st.color_temp g now }

/-- Attribute-poll step for the level: a changed level starts a transition
with the global duration. -/
def poll_level (st : segment_light_t) (new_level g : Nat) (now : Int) : segment_light_t :=
  if new_level ≠ st.level then
    { st with level := new_level
              level_trans := transition_start st.level_trans new_level g now }
  else st

/-- Attribute-poll step for the enhanced hue: a changed hue snaps
(duration 0) and forces color mode 0. -/
def poll_hue (st : segment_light_t) (new_hue : Nat) (now : Int) : segment_light_t :=
  if new_hue ≠ st.hue then
    { st with hue := new_hue, color_mode := 0
              hue_trans := transition_start st.hue_trans new_hue 0 now }
  else st

/-- Attribute-poll step for the saturation: a changed saturation snaps
(duration 0). -/
def poll_sat (st : segment_light_t) (new_sat : Nat) (now : Int) : segment_light_t :=
  if new_sat ≠ st.saturation then
    { st with saturation := new_sat
              sat_trans := transition_start st.sat_trans new_sat 0 now }
  else st

/-- Attribute-poll step for the color temperature: a changed value starts a
transition with the global duration and forces color mode 2. -/
def poll_ct (st : segment_light_t) (new_ct g : Nat) (now : Int) : segment_light_t :=
  if new_ct ≠ st.color_temp then
    { st with color_temp := new_ct, color_mode := 2
              ct_trans := transition_start st.ct_trans new_ct g now }
  else st

/-- Model of `segment_manager_init_transitions` for one segment: seed each
embedded transition's `current_value` from the corresponding settled field
(and nothing else — `target_value` and `active` are left untouched). -/
def segment_manager_init_transitions (st : segment_light_t) : segment_light_t :=
  { st with level_trans := { st.level_trans with current_value := st.level }
            hue_trans := { st.hue_trans with current_value := st.hue }
            sat_trans := { st.sat_trans with current_value := st.saturation }
            ct_trans := { st.ct_trans with current_value := st.color_temp } }

/-- Default light state set by `segment_manager_init`: zeroed struct with
level 128, color temperature 250 mireds, startup behavior 0xFF. -/
def segment_default : segment_light_t :=
  { «on» := false, level := 128, hue := 0, saturation := 0, color_mode := 0
    color_temp := 250, startup_on_off := 255
    level_trans := transition_zero, hue_trans := transition_zero
    sat_trans := transition_zero, ct_trans := transition_zero }

/-- Demonstration segment for the C10 witness: settled transitions at the
stored values. -/
def demo_seg : segment_light_t :=
  { «on» := true, level := 10, hue := 100, saturation := 20, color_mode := 0
    color_temp := 300, startup_on_off := 255
    level_trans := { transition_zero with current_value := 10, target_value := 10 }
    hue_trans := { transition_zero with current_value := 100, target_value := 100 }
    sat_trans := { transition_zero with current_value := 20, target_value := 20 }
    ct_trans := { transition_zero with current_value := 300, target_value := 300 } }

/-!  ## Lemmas and claim theorems -/

/-!  ## Helper lemmas about the embedded operations -/

lemma transition_tick_inactive (t : transition_t) (n : Int) (h : t.active = false) :
    transition_tick t n = t := by
  unfold transition_tick
  rw [h]
  rfl

lemma transition_tick_active (t : transition_t) (n : Int) (h : t.active = true) :
    transition_tick t n =
      if t.duration_us ≤ (if n - t.start_time_us < 0 then 0 else n - t.start_time_us).toNat then
        { t with current_value := t.target_value, active := false }
      else
        { t with current_value := u16 ((t.start_value : Int) +
            (((t.target_value : Int) - t.start_value) *
              (if n - t.start_time_us < 0 then 0 else n - t.start_time_us)).tdiv
                t.duration_us) } := by
  unfold transition_tick
  rw [h]
  rfl

lemma u16_eq_toNat {x : Int} (h0 : 0 ≤ x) (h1 : x < 65536) : u16 x = x.toNat := by
  unfold u16
  rw [Int.emod_eq_of_lt h0 h1]

lemma tdiv_scaled_nonneg_bounds {r d e : Int} (hd : 0 < d) (hr : 0 ≤ r)
    (he0 : 0 ≤ e) (hed : e ≤ d) : 0 ≤ (r * e).tdiv d ∧ (r * e).tdiv d ≤ r := by
  have hre : 0 ≤ r * e := mul_nonneg hr he0
  rw [Int.tdiv_eq_ediv hre hd.le]
  refine ⟨Int.ediv_nonneg hre hd.le, ?_⟩
  have h1 : r * e ≤ r * d := mul_le_mul_of_nonneg_left hed hr
  have h2 : r * e / d ≤ r * d / d := Int.ediv_le_ediv hd h1
  rwa [Int.mul_ediv_cancel r hd.ne'] at h2

lemma tdiv_scaled_mono_nonneg {r d e1 e2 : Int} (hd : 0 < d) (hr : 0 ≤ r)
    (h0 : 0 ≤ e1) (h12 : e1 ≤ e2) : (r * e1).tdiv d ≤ (r * e2).tdiv d := by
  rw [Int.tdiv_eq_ediv (mul_nonneg hr h0) hd.le,
    Int.tdiv_eq_ediv (mul_nonneg hr (h0.trans h12)) hd.le]
  exact Int.ediv_le_ediv hd (mul_le_mul_of_nonneg_left h12 hr)

lemma tdiv_neg_factor (r e d : Int) : (r * e).tdiv d = -(((-r) * e).tdiv d) := by
  have h : (-r) * e = -(r * e) := by ring
  rw [h, Int.neg_tdiv, neg_neg]

lemma tdiv_scaled_nonpos_bounds {r d e : Int} (hd : 0 < d) (hr : r ≤ 0)
    (he0 : 0 ≤ e) (hed : e ≤ d) : r ≤ (r * e).tdiv d ∧ (r * e).tdiv d ≤ 0 := by
  have hb := tdiv_scaled_nonneg_bounds (r := -r) hd (by omega) he0 hed
  rw [tdiv_neg_factor r e d]
  omega

lemma tdiv_scaled_mono_nonpos {r d e1 e2 : Int} (hd : 0 < d) (hr : r ≤ 0)
    (h0 : 0 ≤ e1) (h12 : e1 ≤ e2) : (r * e2).tdiv d ≤ (r * e1).tdiv d := by
  have hb := tdiv_scaled_mono_nonneg (r := -r) hd (by omega) h0 h12
  rw [tdiv_neg_factor r e1 d, tdiv_neg_factor r e2 d]
  omega

lemma val_at_bounds (v tgt : Nat) {D : Nat} {e : Int} (hD : 0 < D) (he0 : 0 ≤ e)
    (heD : e ≤ (D : Int)) :
    (v ≤ tgt → (v : Int) ≤ val_at v tgt D e ∧ val_at v tgt D e ≤ (tgt : Int)) ∧
    (tgt ≤ v → (tgt : Int) ≤ val_at v tgt D e ∧ val_at v tgt D e ≤ (v : Int)) := by
  unfold val_at
  constructor
  · intro hvt
    have hb := tdiv_scaled_nonneg_bounds (r := (tgt : Int) - v) (d := (D : Int))
      (by exact_mod_cast hD) (by omega) he0 heD
    omega
  · intro htv
    have hb := tdiv_scaled_nonpos_bounds (r := (tgt : Int) - v) (d := (D : Int))
      (by exact_mod_cast hD) (by omega) he0 heD
    omega

lemma val_at_mono (v tgt : Nat) {D : Nat} {e1 e2 : Int} (hD : 0 < D) (h0 : 0 ≤ e1)
    (h12 : e1 ≤ e2) :
    (v ≤ tgt → val_at v tgt D e1 ≤ val_at v tgt D e2) ∧
    (tgt ≤ v → val_at v tgt D e2 ≤ val_at v tgt D e1) := by
  unfold val_at
  constructor
  · intro hvt
    have hb := tdiv_scaled_mono_nonneg (r := (tgt : Int) - v) (d := (D : Int))
      (by exact_mod_cast hD) (by omega) h0 h12
    omega
  · intro htv
    have hb := tdiv_scaled_mono_nonpos (r := (tgt : Int) - v) (d := (D : Int))
      (by exact_mod_cast hD) (by omega) h0 h12
    omega

lemma transition_start_pos (t : transition_t) (tgt d : Nat) (now : Int) (hd : 0 < d) :
    transition_start t tgt d now =
      ⟨true, now, d * 1000 % 4294967296, t.current_value, tgt, t.current_value⟩ := by
  unfold transition_start
  rw [if_neg (by omega)]

lemma tick_shape (a : Bool) (t0 : Int) (D sv tv cv : Nat) (n : Int) (h : a = true) :
    transition_tick ⟨a, t0, D, sv, tv, cv⟩ n =
      if D ≤ ((if n - t0 < 0 then 0 else n - t0) : Int).toNat then
        (⟨false, t0, D, sv, tv, tv⟩ : transition_t)
      else
        ⟨true, t0, D, sv, tv, u16 (val_at sv tv D (if n - t0 < 0 then 0 else n - t0))⟩ := by
  subst h
  unfold transition_tick val_at
  rfl

/-- C1: starting a new transition on an already-active transition with a
positive duration leaves `GetValue` at the pre-existing interpolated value
`v` (no visual jump), and subsequent ticks at non-decreasing times move
`current_value` monotonically from `v` toward the new target. -/
theorem C1_interruption_continuity
    (t : transition_t) (v tgt d : Nat) (now0 n1 n2 : Int)
    (hact : t.active = true) (hv : t.current_value = v)
    (hv16 : v < 65536) (ht16 : tgt < 65536)
    (hd : 0 < d) (h12 : n1 ≤ n2) :
    transition_get_value (transition_start t tgt d now0) = v ∧
    (v ≤ tgt →
      v ≤ (transition_tick (transition_start t tgt d now0) n1).current_value ∧
      (transition_tick (transition_start t tgt d now0) n1).current_value ≤
        (transition_tick (transition_tick (transition_start t tgt d now0) n1) n2).current_value ∧
      (transition_tick (transition_tick (transition_start t tgt d now0) n1) n2).current_value
        ≤ tgt) ∧
    (tgt ≤ v →
      tgt ≤ (transition_tick (transition_tick (transition_start t tgt d now0) n1) n2).current_value ∧
      (transition_tick (transition_tick (transition_start t tgt d now0) n1) n2).current_value ≤
        (transition_tick (transition_start t tgt d now0) n1).current_value ∧
      (transition_tick (transition_start t tgt d now0) n1).current_value ≤ v) := by
  rw [transition_start_pos t tgt d now0 hd, hv]
  set D : Nat := d * 1000 % 4294967296 with hDdef
  refine ⟨rfl, ?_⟩
  set e1 : Int := if n1 - now0 < 0 then 0 else n1 - now0 with he1def
  set e2 : Int := if n2 - now0 < 0 then 0 else n2 - now0 with he2def
  have he10 : 0 ≤ e1 := by rw [he1def]; split <;> omega
  have he20 : 0 ≤ e2 := by rw [he2def]; split <;> omega
  have he12 : e1 ≤ e2 := by rw [he1def, he2def]; split <;> split <;> omega
  rw [tick_shape true now0 D v tgt v n1 rfl, ← he1def]
  by_cases hc1 : D ≤ e1.toNat
  · rw [if_pos hc1, transition_tick_inactive _ n2 rfl]
    exact ⟨fun h => by simp [h], fun h => by simp [h]⟩
  · rw [if_neg hc1]
    have hD : 0 < D := by omega
    have he1D : e1 ≤ (D : Int) := by omega
    have hb1 := val_at_bounds v tgt hD he10 he1D
    have hval1lo : v ≤ tgt → (v : Int) ≤ val_at v tgt D e1 ∧ val_at v tgt D e1 ≤ tgt :=
      hb1.1
    have hval1hi : tgt ≤ v → (tgt : Int) ≤ val_at v tgt D e1 ∧ val_at v tgt D e1 ≤ v :=
      hb1.2
    have hval1rng : 0 ≤ val_at v tgt D e1 ∧ val_at v tgt D e1 < 65536 := by
      rcases Nat.le_total v tgt with h | h
      · have := hval1lo h; omega
      · have := hval1hi h; omega
    have hcur1 : u16 (val_at v tgt D e1) = (val_at v tgt D e1).toNat :=
      u16_eq_toNat hval1rng.1 hval1rng.2
    rw [tick_shape true now0 D v tgt _ n2 rfl, ← he2def]
    by_cases hc2 : D ≤ e2.toNat
    · rw [if_pos hc2]
      simp only [hcur1]
      constructor
      · intro h
        have := hval1lo h
        omega
      · intro h
        have := hval1hi h
        omega
    · rw [if_neg hc2]
      have he2D : e2 ≤ (D : Int) := by omega
      have hb2 := val_at_bounds v tgt hD he20 he2D
      have hmono := val_at_mono v tgt hD he10 he12
      have hval2rng : 0 ≤ val_at v tgt D e2 ∧ val_at v tgt D e2 < 65536 := by
        rcases Nat.le_total v tgt with h | h
        · have := hb2.1 h; omega
        · have := hb2.2 h; omega
      have hcur2 : u16 (val_at v tgt D e2) = (val_at v tgt D e2).toNat :=
        u16_eq_toNat hval2rng.1 hval2rng.2
      simp only [hcur1, hcur2]
      constructor
      · intro h
        have hbb := hb2.1 h
        have hmm := hmono.1 h
        have hll := hval1lo h
        omega
      · intro h
        have hbb := hb2.2 h
        have hmm := hmono.2 h
        have hhh := hval1hi h
        omega

/-- C1 witness: an active transition mid-flight at value 50 is restarted
toward 200 over 1000 ms; `GetValue` stays 50 and ticks at 250 ms and
750 ms move the value monotonically from 50 toward 200. -/
theorem C1_witness :
    transition_get_value (transition_start ⟨true, 0, 1000000, 0, 100, 50⟩ 200 1000 0) = 50 ∧
    (50 ≤ (transition_tick (transition_start ⟨true, 0, 1000000, 0, 100, 50⟩ 200 1000 0)
        250000).current_value ∧
      (transition_tick (transition_start ⟨true, 0, 1000000, 0, 100, 50⟩ 200 1000 0)
        250000).current_value ≤
      (transition_tick (transition_tick (transition_start ⟨true, 0, 1000000, 0, 100, 50⟩
        200 1000 0) 250000) 750000).current_value ∧
      (transition_tick (transition_tick (transition_start ⟨true, 0, 1000000, 0, 100, 50⟩
        200 1000 0) 250000) 750000).current_value ≤ 200) := by
  have h := C1_interruption_continuity ⟨true, 0, 1000000, 0, 100, 50⟩ 50 200 1000 0
    250000 750000 rfl rfl (by decide) (by decide) (by decide) (by decide)
  exact ⟨h.1, h.2.1 (by decide)⟩

/-- C2: for every transition `t` and target `tv`, `Start(t, tv, 0)` sets
`start_value == target_value == current_value == tv` and leaves the
transition inactive, regardless of prior state. -/
theorem C2_instant_set_idempotence (t : transition_t) (tv : Nat) (now : Int) :
    (transition_start t tv 0 now).start_value = tv ∧
    (transition_start t tv 0 now).target_value = tv ∧
    (transition_start t tv 0 now).current_value = tv ∧
    transition_is_active (transition_start t tv 0 now) = false ∧
    transition_get_value (transition_start t tv 0 now) = tv := by
  simp [transition_start, transition_is_active, transition_get_value]

/-- C3: once elapsed time since `start_time` reaches or exceeds the duration,
`Tick` pins `current_value` at `target_value` and deactivates, and every
further `Tick` leaves the state unchanged. -/
theorem C3_completion_pinning (t : transition_t) (now : Int)
    (hact : t.active = true)
    (helapsed : (t.duration_us : Int) ≤ now - t.start_time_us) :
    (transition_tick t now).current_value = t.target_value ∧
    (transition_tick t now).active = false ∧
    ∀ n : Int, transition_tick (transition_tick t now) n = transition_tick t now := by
  have hstep : transition_tick t now =
      { t with current_value := t.target_value, active := false } := by
    unfold transition_tick
    rw [hact]
    simp only [Bool.not_true, Bool.false_eq_true, if_false]
    have hnn : ¬ (now - t.start_time_us < 0) := by omega
    rw [if_neg hnn]
    have hge : t.duration_us ≤ (now - t.start_time_us).toNat := by omega
    rw [if_pos hge]
  refine ⟨by rw [hstep], by rw [hstep], fun n => ?_⟩
  rw [hstep]
  exact transition_tick_inactive _ n rfl

/-- C3 witness: a concrete active transition whose duration has fully
elapsed; the theorem applied at `now = 100`, `duration_us = 100`. -/
theorem C3_completion_pinning_witness :
    (transition_tick ⟨true, 0, 100, 5, 77, 30⟩ 100).current_value = 77 ∧
    (transition_tick ⟨true, 0, 100, 5, 77, 30⟩ 100).active = false ∧
    transition_tick (transition_tick ⟨true, 0, 100, 5, 77, 30⟩ 100) 50 =
      transition_tick ⟨true, 0, 100, 5, 77, 30⟩ 100 := by
  have h := C3_completion_pinning ⟨true, 0, 100, 5, 77, 30⟩ 100 (by decide) (by decide)
  exact ⟨h.1, h.2.1, h.2.2 50⟩

/-- C4: `Cancel` clears `active` and changes no other field, and a `Tick`
after cancellation has no effect at all. -/
theorem C4_cancel_freezes (t : transition_t) (n : Int) :
    (transition_cancel t).active = false ∧
    (transition_cancel t).current_value = t.current_value ∧
    (transition_cancel t).start_value = t.start_value ∧
    (transition_cancel t).target_value = t.target_value ∧
    (transition_cancel t).duration_us = t.duration_us ∧
    (transition_cancel t).start_time_us = t.start_time_us ∧
    transition_tick (transition_cancel t) n = transition_cancel t := by
  refine ⟨rfl, rfl, rfl, rfl, rfl, rfl, ?_⟩
  exact transition_tick_inactive _ n rfl

/-- C5 counterexample: the settled-state invariant is not preserved by
`Cancel` or by the transition initialization from loaded state.  Starting
a 1000 ms transition from 0 to 100, ticking to the midpoint and
cancelling yields `active = false` with `current_value = 50 ≠ 100 =
target_value`; initializing the default segment (level 128, zeroed
transitions) leaves its level transition inactive with `current_value =
128 ≠ 0 = target_value`. -/
theorem C5_cancel_violates_settled :
    ((transition_cancel (transition_tick (transition_start transition_zero 100 1000 0) 500000)).active
        = false ∧
     (transition_cancel (transition_tick (transition_start transition_zero 100 1000 0) 500000)).current_value
      ≠ (transition_cancel (transition_tick (transition_start transition_zero 100 1000 0) 500000)).target_value) ∧
    ((segment_manager_init_transitions segment_default).level_trans.active = false ∧
     (segment_manager_init_transitions segment_default).level_trans.current_value
      ≠ (segment_manager_init_transitions segment_default).level_trans.target_value) := by
  refine ⟨⟨rfl, by decide⟩, rfl, by decide⟩

/-- C5 (amended): `Start` and `Tick` preserve the settled-state invariant
(`active = false → current_value = target_value`); `Cancel` does not. -/
theorem C5_start_tick_preserve_settled (t : transition_t) (tgt d : Nat) (nowS nowT : Int)
    (h : settled t) :
    settled (transition_start t tgt d nowS) ∧ settled (transition_tick t nowT) := by
  constructor
  · unfold transition_start settled
    split
    · intro _; rfl
    · intro hfalse; simp at hfalse
  · by_cases ha : t.active
    · rw [transition_tick_active t nowT ha]
      unfold settled
      split <;> split <;> intro hfalse
      all_goals first
        | rfl
        | simp [ha] at hfalse
    · simp only [Bool.not_eq_true] at ha
      rw [transition_tick_inactive t nowT ha]
      exact h

/-- C5 witness: the zero-initialised transition is settled and the amended
preservation theorem applies to it. -/
theorem C5_witness :
    settled (transition_start transition_zero 7 0 0) ∧
    settled (transition_tick transition_zero 5) :=
  C5_start_tick_preserve_settled transition_zero 7 0 0 5 (by decide)

/-- C6: registration is idempotent by address (re-registering an existing
reference succeeds and leaves the registry unchanged, so with a duplicate-free
registry every reference appears at most once), and registering a new
reference into a full registry of 64 entries reports `ESP_ERR_NO_MEM`
without modifying the registry. -/
theorem C6_register_idempotent_capacity (reg : List Nat) (p q : Nat) :
    (p ∈ reg → transition_register reg (some p) = (reg, EspErr.ok)) ∧
    (reg.Nodup → ((transition_register reg (some p)).1).Nodup) ∧
    (reg.length = 64 → q ∉ reg →
      transition_register reg (some q) = (reg, EspErr.noMem)) := by
  refine ⟨fun hmem => ?_, fun hnd => ?_, fun hlen hq => ?_⟩
  · simp [transition_register, hmem]
  · unfold transition_register
    by_cases hmem : p ∈ reg
    · simpa [hmem] using hnd
    · by_cases hfull : 64 ≤ reg.length
      · simpa [hmem, hfull] using hnd
      · simp only [if_neg hmem, if_neg hfull]
        simp [List.nodup_append, hnd, hmem]
  · simp [transition_register, hq, hlen]

/-- C6 witness: a full registry of the 64 distinct references `0..63`;
re-registering `0` is an unchanged success, registering `100` reports
`noMem`, and the registry stays duplicate-free. -/
theorem C6_witness :
    transition_register (List.range 64) (some 0) = (List.range 64, EspErr.ok) ∧
    ((transition_register (List.range 64) (some 0)).1).Nodup ∧
    transition_register (List.range 64) (some 100) = (List.range 64, EspErr.noMem) :=
  ⟨(C6_register_idempotent_capacity (List.range 64) 0 100).1 (by decide),
   (C6_register_idempotent_capacity (List.range 64) 0 100).2.1 (by decide),
   (C6_register_idempotent_capacity (List.range 64) 0 100).2.2 (by decide) (by decide)⟩

lemma i16_eq_self {x : Int} (h0 : -32768 ≤ x) (h1 : x < 32768) : i16 x = x := by
  unfold i16
  omega

lemma neg_tmod_eq (a b : Int) : (-a).tmod b = -(a.tmod b) := by
  rw [Int.tmod_def, Int.tmod_def, Int.neg_tdiv]
  ring

/-- C7: for inputs in 0..360 `hue_shortest_arc` returns the target shifted
by -360 when the naive difference exceeds 180, by +360 when it is below
-180, and unchanged otherwise — so interpolation takes the shorter arc. -/
theorem C7_hue_shortest_arc (c t : Nat) (hc : c ≤ 360) (ht : t ≤ 360) :
    hue_shortest_arc c t =
      if 180 < (t : Int) - c then (t : Int) - 360
      else if (t : Int) - c < -180 then (t : Int) + 360
      else (t : Int) := by
  unfold hue_shortest_arc
  have hci : i16 c = (c : Int) := i16_eq_self (by omega) (by omega)
  have hti : i16 t = (t : Int) := i16_eq_self (by omega) (by omega)
  simp only [hci, hti]
  have hdi : i16 ((t : Int) - c) = (t : Int) - c := i16_eq_self (by omega) (by omega)
  rw [hdi]
  split_ifs with h1 h2
  · exact i16_eq_self (by omega) (by omega)
  · exact i16_eq_self (by omega) (by omega)
  · rfl

/-- C7 witness: `hue_shortest_arc 350 10 = 370` (+20° through 360/0) and
`hue_shortest_arc 10 350 = -10` (-20° path). -/
theorem C7_witness : hue_shortest_arc 350 10 = 370 ∧ hue_shortest_arc 10 350 = -10 :=
  ⟨(C7_hue_shortest_arc 350 10 (by decide) (by decide)).trans (by decide),
   (C7_hue_shortest_arc 10 350 (by decide) (by decide)).trans (by decide)⟩

/-- C8 counterexample: `normalize_hue 361 = 361`, outside the claimed
0..360 range — the `raw > 360` branch adds 360 even though 361 is not a
wrapped negative signed 16-bit value. -/
theorem C8_counterexample : normalize_hue 361 = 361 ∧ ¬ normalize_hue 361 ≤ 360 := by
  decide

/-- C8 (amended): for `raw ≤ 360` the result is `raw % 360` (in 0..359);
for `raw ≥ 32768` — the inputs that genuinely are wrapped negative signed
16-bit values — the result is corrected into 1..360; but for `raw` in
361..32767 the result is `raw % 360 + 360`, which lies in 360..719 and
exceeds 360 whenever `raw` is not a multiple of 360. -/
theorem C8_normalize_hue_range (raw : Nat) (h16 : raw < 65536) :
    (raw ≤ 360 → normalize_hue raw = raw % 360 ∧ normalize_hue raw < 360) ∧
    (32768 ≤ raw → 1 ≤ normalize_hue raw ∧ normalize_hue raw ≤ 360) ∧
    (360 < raw → raw < 32768 → normalize_hue raw = raw % 360 + 360) := by
  refine ⟨fun hle => ?_, fun hneg => ?_, fun hgt hlt => ?_⟩
  · unfold normalize_hue
    rw [if_neg (by omega)]
    exact ⟨rfl, by omega⟩
  · unfold normalize_hue
    rw [if_pos (by omega)]
    have hi : i16 raw = (raw : Int) - 65536 := by unfold i16; omega
    have hneg' : ((raw : Int) - 65536) = -((65536 : Int) - raw) := by ring
    rw [hi, hneg', neg_tmod_eq, Int.tmod_eq_emod (by omega) (by omega)]
    unfold u16
    omega
  · unfold normalize_hue
    rw [if_pos (by omega)]
    have hi : i16 raw = (raw : Int) := by unfold i16; omega
    rw [hi, Int.tmod_eq_emod (by omega) (by omega)]
    unfold u16
    omega

/-- C8 witness: raw 65476 (the wrapped encoding of -60°) normalizes into
1..360 via the amended theorem. -/
theorem C8_witness :
    (32768 : Nat) ≤ 65476 ∧ 1 ≤ normalize_hue 65476 ∧ normalize_hue 65476 ≤ 360 :=
  ⟨by decide,
   ((C8_normalize_hue_range 65476 (by decide)).2.1 (by decide)).1,
   ((C8_normalize_hue_range 65476 (by decide)).2.1 (by decide)).2⟩

lemma led_driver_set_pixel_count (L : LedState) (strip idx : Nat) (c : Rgbw) :
    (led_driver_set_pixel L strip idx c).count = L.count := by
  unfold led_driver_set_pixel
  split_ifs <;> rfl

lemma led_driver_clear_count (L : LedState) (strip : Nat) :
    (led_driver_clear L strip).count = L.count := by
  unfold led_driver_clear
  split_ifs <;> rfl

lemma led_driver_set_pixel_buf (L : LedState) (strip idx : Nat) (c : Rgbw) (s i : Nat) :
    (led_driver_set_pixel L strip idx c).buf s i =
      if s = strip ∧ i = idx ∧ strip < LED_DRIVER_MAX_STRIPS ∧ idx < L.count strip then c
      else L.buf s i := by
  unfold led_driver_set_pixel LED_DRIVER_MAX_STRIPS
  split_ifs <;>
    first
    | rfl
    | omega
    | (show (if s = strip ∧ i = idx then c else L.buf s i) = _
       split_ifs <;> first | rfl | omega)

lemma led_driver_clear_buf (L : LedState) (strip : Nat) (s i : Nat) :
    (led_driver_clear L strip).buf s i =
      if s = strip ∧ strip < LED_DRIVER_MAX_STRIPS ∧ i < L.count strip then rgbw_zero
      else L.buf s i := by
  unfold led_driver_clear LED_DRIVER_MAX_STRIPS
  split_ifs <;>
    first
    | rfl
    | omega
    | (show (if s = strip ∧ i < L.count strip then rgbw_zero else L.buf s i) = _
       split_ifs <;> first | rfl | omega)

lemma write_pixel_range_count (strip : Nat) (c : Rgbw) :
    ∀ (len start : Nat) (L : LedState),
      (write_pixel_range L strip c start len).count = L.count := by
  intro len
  induction len with
  | zero => intro start L; rfl
  | succ n ih =>
    intro start L
    show (write_pixel_range (led_driver_set_pixel L strip start c) strip c (start + 1) n).count
      = L.count
    rw [ih, led_driver_set_pixel_count]

lemma write_pixel_range_buf (strip : Nat) (c : Rgbw) :
    ∀ (len start : Nat) (L : LedState) (s i : Nat),
      (write_pixel_range L strip c start len).buf s i =
        if s = strip ∧ strip < LED_DRIVER_MAX_STRIPS ∧ start ≤ i ∧ i < start + len ∧
            i < L.count strip then c
        else L.buf s i := by
  intro len
  induction len with
  | zero =>
    intro start L s i
    show L.buf s i = _
    rw [if_neg]
    rintro ⟨_, _, h3, h4, _⟩
    omega
  | succ n ih =>
    intro start L s i
    show (write_pixel_range (led_driver_set_pixel L strip start c) strip c (start + 1) n).buf s i
      = _
    rw [ih, led_driver_set_pixel_count, led_driver_set_pixel_buf]
    rcases em (s = strip) with hs | hs
    · subst hs
      unfold LED_DRIVER_MAX_STRIPS
      split_ifs <;> first | rfl | omega
    · rw [if_neg (fun h => hs h.1), if_neg (fun h => hs h.1), if_neg (fun h => hs h.1)]

lemma render_segment_count (g : segment_geom_t) (st : segment_light_t) (L : LedState) :
    (render_segment g st L).count = L.count := by
  unfold render_segment
  split_ifs
  · rfl
  · exact write_pixel_range_count _ _ _ _ _

lemma render_segment_buf (g : segment_geom_t) (st : segment_light_t) (L : LedState)
    (s i : Nat) :
    (render_segment g st L).buf s i =
      if g.count ≠ 0 ∧ g.strip_id = s ∧ g.start ≤ i ∧ i < (g.start + g.count) % 65536 ∧
          i < led_driver_get_count L s then segment_color st
      else L.buf s i := by
  unfold render_segment
  rcases em (g.count = 0) with h0 | h0
  · rw [if_pos h0, if_neg]
    rintro ⟨h, _⟩
    exact h h0
  · rw [if_neg h0]
    show (write_pixel_range L g.strip_id (segment_color st) g.start
      (min ((g.start + g.count) % 65536) (led_driver_get_count L g.strip_id)
        - g.start)).buf s i = _
    rw [write_pixel_range_buf]
    rcases em (s = g.strip_id) with hs | hs
    · rw [hs]
      unfold led_driver_get_count LED_DRIVER_MAX_STRIPS
      split_ifs <;> first | rfl | omega
    · rw [if_neg (fun h => hs h.1), if_neg (fun h => hs (h.2.1.symm))]

lemma render_fold_count (geom : Nat → segment_geom_t) (stf : Nat → segment_light_t) :
    ∀ (l : List Nat) (L : LedState),
      ((l.foldl (fun acc n => render_segment (geom n) (stf n) acc) L).count) = L.count := by
  intro l
  induction l with
  | nil => intro L; rfl
  | cons n rest ih =>
    intro L
    simp only [List.foldl_cons]
    rw [ih, render_segment_count]

lemma render_fold_buf (geom : Nat → segment_geom_t) (stf : Nat → segment_light_t)
    (L0 : LedState) (s i : Nat) :
    ∀ (l : List Nat) (L : LedState), L.count = L0.count →
      ((l.foldl (fun acc n => render_segment (geom n) (stf n) acc) L).buf s i) =
        l.foldl (fun acc n => if covers geom L0 n s i then segment_color (stf n) else acc)
          (L.buf s i) := by
  intro l
  induction l with
  | nil => intro L _; rfl
  | cons n rest ih =>
    intro L hcnt
    simp only [List.foldl_cons]
    rw [ih _ (by rw [render_segment_count, hcnt])]
    have hgc : led_driver_get_count L = led_driver_get_count L0 := by
      funext s'
      unfold led_driver_get_count
      rw [hcnt]
    rw [render_segment_buf, hgc]
    rfl

lemma pick_fold_of_not_covered (geom : Nat → segment_geom_t) (stf : Nat → segment_light_t)
    (L0 : LedState) (s i : Nat) :
    ∀ (l : List Nat), (∀ n ∈ l, ¬ covers geom L0 n s i) → ∀ x : Rgbw,
      l.foldl (fun acc n => if covers geom L0 n s i then segment_color (stf n) else acc) x
        = x := by
  intro l
  induction l with
  | nil => intro _ x; rfl
  | cons n rest ih =>
    intro h x
    simp only [List.foldl_cons]
    rw [if_neg (h n (by simp))]
    exact ih (fun m hm => h m (by simp [hm])) x

/-- C9: after one `update_leds` compose pass, (a) a pixel covered by
segment `n` (enabled, on the pixel's strip, range containing the pixel
after clamping) whose higher-index segments do not cover it shows exactly
segment `n`'s RGBW contribution — later segments overwrite earlier ones;
(b) a pixel at or beyond the strip's physical count is never written;
(c) a segment that is off contributes the all-zero pixel. -/
theorem C9_render_layering (geom : Nat → segment_geom_t) (stf : Nat → segment_light_t)
    (L : LedState) (strip i : Nat) :
    (∀ n, n < 8 → covers geom L n strip i →
      (∀ m, m < 8 → n < m → ¬ covers geom L m strip i) →
      (update_leds geom stf L).buf strip i = segment_color (stf n)) ∧
    (led_driver_get_count L strip ≤ i →
      (update_leds geom stf L).buf strip i = L.buf strip i) ∧
    (∀ n, (stf n).«on» = false → segment_color (stf n) = rgbw_zero) := by
  have hL1count : (led_driver_clear (led_driver_clear L 0) 1).count = L.count := by
    rw [led_driver_clear_count, led_driver_clear_count]
  have hfold : (update_leds geom stf L).buf strip i =
      (List.range 8).foldl
        (fun acc n => if covers geom L n strip i then segment_color (stf n) else acc)
        ((led_driver_clear (led_driver_clear L 0) 1).buf strip i) := by
    unfold update_leds
    exact render_fold_buf geom stf L strip i (List.range 8) _ hL1count
  refine ⟨?_, ?_, ?_⟩
  · intro n hn hcov hmax
    rw [hfold]
    have h8 : (7 - n) + (n + 1) = 8 := by omega
    have hsplit : List.range 8 = List.range' 0 (n + 1) ++ List.range' (0 + (n + 1)) (7 - n) := by
      rw [List.range_eq_range', List.range'_append_1, h8]
    rw [hsplit, List.foldl_append]
    rw [List.range'_1_concat 0 n, List.foldl_append]
    simp only [List.foldl_cons, List.foldl_nil, Nat.zero_add]
    rw [if_pos hcov]
    refine pick_fold_of_not_covered geom stf L strip i _ ?_ _
    intro m hm
    rcases List.mem_range'.mp hm with ⟨j, hj, rfl⟩
    exact hmax _ (by omega) (by omega)
  · intro hout
    rw [hfold]
    have hnc : ∀ m ∈ List.range 8, ¬ covers geom L m strip i := by
      intro m _
      unfold covers
      rintro ⟨_, _, _, _, h5⟩
      omega
    rw [pick_fold_of_not_covered geom stf L strip i _ hnc _]
    have hout' : 2 ≤ strip ∨ L.count strip ≤ i := by
      unfold led_driver_get_count LED_DRIVER_MAX_STRIPS at hout
      by_cases h2 : 2 ≤ strip
      · exact Or.inl h2
      · rw [if_neg h2] at hout
        exact Or.inr hout
    rw [led_driver_clear_buf, led_driver_clear_count, led_driver_clear_buf]
    unfold LED_DRIVER_MAX_STRIPS
    by_cases h0 : strip = 0
    · subst h0
      simp [show ¬ (i < L.count 0) from by omega]
    · by_cases h1 : strip = 1
      · subst h1
        simp [show ¬ (i < L.count 1) from by omega]
      · simp [h0, h1]
  · intro n hoff
    simp [segment_color, hoff]

/-- C9 witness: pixel 7 lies in the overlap of segments 0 and 3, so the
composed frame shows segment 3's color there; pixel 25 is beyond the
20-pixel strip and keeps its original sentinel value. -/
theorem C9_witness :
    (update_leds demo_geom demo_light demo_led).buf 0 7 = segment_color (demo_light 3) ∧
    (update_leds demo_geom demo_light demo_led).buf 0 25 = demo_led.buf 0 25 :=
  ⟨(C9_render_layering demo_geom demo_light demo_led 0 7).1 3 (by decide) (by decide)
      (by decide),
   (C9_render_layering demo_geom demo_light demo_led 0 25).2.1 (by decide)⟩

/-- C10: hue and saturation snap while level and color temperature animate
with the global duration.  On preset recall the hue and saturation
transitions end inactive at the recalled value (instant), while with a
positive global duration the level and color-temperature transitions
become active, starting from their previous interpolated value toward the
recalled value with `duration_us = g * 1000`.  The attribute-poll steps
behave the same way: a changed hue or saturation snaps instantly, a
changed level or color temperature animates with the global duration. -/
theorem C10_snap_vs_animate (st : segment_light_t) (g nl nh ns nc : Nat) (now : Int) :
    ((recall_start_transitions st g now).hue_trans.active = false ∧
     transition_get_value (recall_start_transitions st g now).hue_trans = st.hue ∧
     (recall_start_transitions st g now).sat_trans.active = false ∧
     transition_get_value (recall_start_transitions st g now).sat_trans = st.saturation) ∧
    (0 < g →
      (recall_start_transitions st g now).level_trans.active = true ∧
      (recall_start_transitions st g now).level_trans.start_value
        = st.level_trans.current_value ∧
      (recall_start_transitions st g now).level_trans.target_value = st.level ∧
      (recall_start_transitions st g now).level_trans.duration_us
        = g * 1000 % 4294967296 ∧
      (recall_start_transitions st g now).ct_trans.active = true ∧
      (recall_start_transitions st g now).ct_trans.start_value
        = st.ct_trans.current_value ∧
      (recall_start_transitions st g now).ct_trans.target_value = st.color_temp ∧
      (recall_start_transitions st g now).ct_trans.duration_us
        = g * 1000 % 4294967296) ∧
    (nh ≠ st.hue →
      (poll_hue st nh now).hue_trans.active = false ∧
      transition_get_value (poll_hue st nh now).hue_trans = nh) ∧
    (ns ≠ st.saturation →
      (poll_sat st ns now).sat_trans.active = false ∧
      transition_get_value (poll_sat st ns now).sat_trans = ns) ∧
    (nl ≠ st.level → 0 < g →
      (poll_level st nl g now).level_trans.active = true ∧
      (poll_level st nl g now).level_trans.start_value = st.level_trans.current_value ∧
      (poll_level st nl g now).level_trans.target_value = nl ∧
      (poll_level st nl g now).level_trans.duration_us = g * 1000 % 4294967296) ∧
    (nc ≠ st.color_temp → 0 < g →
      (poll_ct st nc g now).ct_trans.active = true ∧
      (poll_ct st nc g now).ct_trans.start_value = st.ct_trans.current_value ∧
      (poll_ct st nc g now).ct_trans.target_value = nc ∧
      (poll_ct st nc g now).ct_trans.duration_us = g * 1000 % 4294967296) := by
  refine ⟨?_, fun hg => ?_, fun hh => ?_, fun hs => ?_, fun hl hg => ?_, fun hc hg => ?_⟩
  · simp [recall_start_transitions, transition_start, transition_get_value]
  · simp [recall_start_transitions, transition_start, Nat.pos_iff_ne_zero.mp hg]
  · simp [poll_hue, hh, transition_start, transition_get_value]
  · simp [poll_sat, hs, transition_start, transition_get_value]
  · simp [poll_level, hl, transition_start, Nat.pos_iff_ne_zero.mp hg]
  · simp [poll_ct, hc, transition_start, Nat.pos_iff_ne_zero.mp hg]

/-- C10 witness: a concrete segment (level 10, hue 100, saturation 20,
color temperature 300, all transitions settled at those values) recalled
to the same stored values with global duration 100 ms, and polled with
changed values; hue/saturation snap, level/color-temperature animate. -/
theorem C10_witness :
    ((recall_start_transitions demo_seg 100 0).hue_trans.active = false ∧
     transition_get_value (recall_start_transitions demo_seg 100 0).hue_trans
       = demo_seg.hue ∧
     (recall_start_transitions demo_seg 100 0).sat_trans.active = false ∧
     transition_get_value (recall_start_transitions demo_seg 100 0).sat_trans
       = demo_seg.saturation) ∧
    ((recall_start_transitions demo_seg 100 0).level_trans.active = true ∧
     (recall_start_transitions demo_seg 100 0).level_trans.start_value
       = demo_seg.level_trans.current_value ∧
     (recall_start_transitions demo_seg 100 0).level_trans.target_value
       = demo_seg.level ∧
     (recall_start_transitions demo_seg 100 0).level_trans.duration_us
       = 100 * 1000 % 4294967296 ∧
     (recall_start_transitions demo_seg 100 0).ct_trans.active = true ∧
     (recall_start_transitions demo_seg 100 0).ct_trans.start_value
       = demo_seg.ct_trans.current_value ∧
     (recall_start_transitions demo_seg 100 0).ct_trans.target_value
       = demo_seg.color_temp ∧
     (recall_start_transitions demo_seg 100 0).ct_trans.duration_us
       = 100 * 1000 % 4294967296) ∧
    ((poll_hue demo_seg 240 0).hue_trans.active = false ∧
     transition_get_value (poll_hue demo_seg 240 0).hue_trans = 240) ∧
    ((poll_level demo_seg 77 100 0).level_trans.active = true ∧
     (poll_level demo_seg 77 100 0).level_trans.target_value = 77) := by
  have h := C10_snap_vs_animate demo_seg 100 77 240 55 400 0
  refine ⟨h.1, h.2.1 (by decide), h.2.2.1 (by decide), ?_⟩
  have hl := h.2.2.2.2.1 (by decide) (by decide)
  exact ⟨hl.1, hl.2.2.1⟩

end LedFw
